import Mathlib

/-!
Verification of the query-construction core of hyperglass
(src/hyperglass/execution/construct.py).

The `Construct` class translates a validated query (target, VRF, query type)
plus a device and a transport name into a list of command artifacts: rendered
CLI command strings for the "scrape" transport, or JSON-encodable payload
objects for the "rest" transport.

External collaborators (the command catalog `hyperglass.configuration.commands`,
the constant set `hyperglass.constants.target_format_space`, and the standard
library `ipaddress.ip_network(...).version` parse) are modelled as an
environment record `Env` passed to each operation.  Python runtime failures
(the HyperglassError raised by VRF matching, and the AttributeError raised by
dereferencing an absent AFI sub-record, an absent source address, or a missing
catalog path) are modelled with the `Except` monad over `ConstructError`.
-/

set_option maxHeartbeats 1000000

namespace Hyperglass

/-- Address-family sub-record of a VRF: the routing-table name passed to the
device and the optional source address for probes.  The source address is the
compressed textual form of the configured IP address. -/
structure AfiRecord where
  vrf_name : String
  source_address : Option String
deriving Repr, DecidableEq

/-- One routing context on a device: a name (the literal "default" denotes the
global table) and optionally-present per-family sub-records. -/
structure VrfRecord where
  name : String
  ipv4 : Option AfiRecord
  ipv6 : Option AfiRecord
deriving Repr, DecidableEq

/-- Device object as consumed by construct.py: `nos` is used for the
target-format-space check, `commands` is the key into the command catalog
(construct.py passes `self.device.commands` to `device_commands`), and `vrfs`
is the ordered list of configured VRF records. -/
structure Device where
  nos : String
  commands : String
  vrfs : List VrfRecord
deriving Repr, DecidableEq

/-- Validated query data: target and VRF name (query_type selects which
operation is invoked, so it is not carried here). -/
structure QueryData where
  query_target : String
  query_vrf : String
deriving Repr, DecidableEq

/-- External collaborators of construct.py:
`commands nos afi query_type` models `operator.attrgetter`'s three-level path
lookup into `hyperglass.configuration.commands` (`none` models the
AttributeError raised when the path is absent); `target_format_space` models
`hyperglass.constants.target_format_space`; `ipVersion` models
`ipaddress.ip_network(target).version` (`none` models the ValueError raised on
an unparsable target; on success the version is always 4 or 6). -/
structure Env where
  commands : String → String → String → Option String
  target_format_space : List String
  ipVersion : String → Option Nat

/-- Failure modes of construction.  `vrfMismatch` is the HyperglassError raised
by `get_device_vrf` (with `keywords=[query_vrf]`); the remaining constructors
classify the Python runtime errors by their cause: `afiMismatch` is the
AttributeError from dereferencing an absent AFI sub-record, `sourceAddressMissing`
the AttributeError from `.compressed` on an absent source address,
`templateNotFound` the AttributeError from a missing catalog path, and
`invalidTarget` the ValueError from `ipaddress.ip_network`. -/
inductive ConstructError where
  | vrfMismatch (keywords : List String)
  | afiMismatch (protocol : String)
  | sourceAddressMissing
  | templateNotFound (nos : String) (afi : String) (query_type : String)
  | invalidTarget (target : String)
deriving Repr, DecidableEq

/-- The JSON-encodable payload produced for the "rest" transport
(construct.py builds it with `json.dumps`; we keep it structured). -/
structure RestPayload where
  query_type : String
  vrf : String
  afi : String
  source : Option String
  target : String
deriving Repr, DecidableEq

/-- A command artifact: a rendered CLI command string ("scrape" transport) or a
REST payload ("rest" transport). -/
inductive Artifact where
  | cli (cmd : String)
  | rest (payload : RestPayload)
deriving Repr, DecidableEq

/-- Python truthiness of an optional string: `None` and the empty string are
falsy, every other string is truthy. -/
def pyTruthyStr : Option String → Bool
  | none => false
  | some s => s ≠ ""

/-- Python `str(...)` of an optional source address as interpolated by
`str.format`: `None` renders as the string "None". -/
def pyStrSource : Option String → String
  | none => "None"
  | some s => s

/-- `re.sub(r"\/", r" ", target)`: replace every slash character by a space. -/
def replaceSlash (s : String) : String :=
  String.mk (s.data.map (fun ch => if ch = '/' then ' ' else ch))

/-- Leftmost, non-overlapping substring replacement on character lists,
structured on a fuel argument (one unit of fuel is spent per character
consumed, so fuel equal to the length of the subject string is exact). -/
def spliceAux : Nat → List Char → List Char → List Char → List Char
  | 0, s, _, _ => s
  | _ + 1, [], _, _ => []
  | fuel + 1, c :: rest, pat, rep =>
    if pat ≠ [] ∧ pat.isPrefixOf (c :: rest) then
      rep ++ spliceAux fuel ((c :: rest).drop pat.length) pat rep
    else
      c :: spliceAux fuel rest pat rep

/-- Replace every (leftmost, non-overlapping) occurrence of `pat` in `s` by
`rep`. -/
def strReplace (s pat rep : String) : String :=
  String.mk (spliceAux s.data.length s.data pat.data rep.data)

/-- Model of `cmd.format(target=..., source=..., vrf=...)` on a command
template containing the named placeholders of the catalog. -/
def pyFormat (tmpl target source vrf : String) : String :=
  strReplace (strReplace (strReplace tmpl "{target}" target) "{source}" source) "{vrf}" vrf

/-- `Construct.get_cmd_type`: "{afi}_vpn" when the query VRF is truthy and not
the literal "default", else "{afi}_default".  The argument is optional because
the Python static method also accepts `None`. -/
def get_cmd_type (query_protocol : String) (query_vrf : Option String) : String :=
  if pyTruthyStr query_vrf && query_vrf != some "default" then
    query_protocol ++ "_vpn"
  else
    query_protocol ++ "_default"

/-- `Construct.get_device_vrf`: scan the device's VRF list, remembering the
most recent record whose name equals the query VRF; raise when none matched. -/
def get_device_vrf (device : Device) (query_vrf : String) : Except ConstructError VrfRecord :=
  match device.vrfs.foldl (fun acc vrf => if vrf.name == query_vrf then some vrf else acc) none with
  | some v => .ok v
  | none => .error (.vrfMismatch [query_vrf])

/-- The state of a `Construct` instance after `__init__` succeeded. -/
structure Construct where
  device : Device
  query_data : QueryData
  transport : String
  query_target : String
  query_vrf : String
  device_vrf : VrfRecord
deriving Repr, DecidableEq

/-- `Construct.__init__`: store the inputs and resolve the device VRF
(raising `vrfMismatch` when no VRF record matches). -/
def Construct.make (device : Device) (query_data : QueryData) (transport : String) :
    Except ConstructError Construct := do
  let dv ← get_device_vrf device query_data.query_vrf
  .ok { device := device, query_data := query_data, transport := transport,
        query_target := query_data.query_target,
        query_vrf := query_data.query_vrf,
        device_vrf := dv }

/-- `Construct.format_target`: replace "/" by " " when the device NOS is in
`target_format_space`, otherwise return the target unchanged. -/
def Construct.format_target (c : Construct) (env : Env) (target : String) : String :=
  if c.device.nos ∈ env.target_format_space then replaceSlash target else target

/-- `Construct.device_commands`: three-level catalog lookup
(nos → afi → query type); a missing path raises. -/
def device_commands (env : Env) (nos afi query_type : String) : Except ConstructError String :=
  match env.commands nos afi query_type with
  | some cmd => .ok cmd
  | none => .error (.templateNotFound nos afi query_type)

/-- `f"ipv{ipaddress.ip_network(target).version}"`. -/
def targetProtocol (env : Env) (target : String) : Except ConstructError String :=
  match env.ipVersion target with
  | some v => .ok ("ipv" ++ toString v)
  | none => .error (.invalidTarget target)

/-- `getattr(device_vrf, query_protocol)` for the two address families. -/
def VrfRecord.afiField (v : VrfRecord) (query_protocol : String) : Option AfiRecord :=
  if query_protocol = "ipv4" then v.ipv4
  else if query_protocol = "ipv6" then v.ipv6
  else none

/-- Dereference an AFI sub-record; `none` models the AttributeError raised by
accessing an attribute of `None` when the VRF lacks the family. -/
def derefAfi (protocol : String) : Option AfiRecord → Except ConstructError AfiRecord
  | some a => .ok a
  | none => .error (.afiMismatch protocol)

/-- Dereference `source_address.compressed`; `none` models the AttributeError
raised when the source address is absent. -/
def derefSource : Option String → Except ConstructError String
  | some s => .ok s
  | none => .error .sourceAddressMissing

/-- `Construct.ping`. -/
def Construct.ping (c : Construct) (env : Env) : Except ConstructError (List Artifact) := do
  let query_protocol ← targetProtocol env c.query_target
  let afiOpt := c.device_vrf.afiField query_protocol
  let cmd_type := get_cmd_type query_protocol (some c.query_vrf)
  if c.transport = "rest" then do
    let afi ← derefAfi query_protocol afiOpt
    let source ← derefSource afi.source_address
    .ok [Artifact.rest { query_type := "ping", vrf := afi.vrf_name, afi := cmd_type,
                         source := some source, target := c.query_target }]
  else if c.transport = "scrape" then do
    let cmd ← device_commands env c.device.commands cmd_type "ping"
    let afi ← derefAfi query_protocol afiOpt
    .ok [Artifact.cli (pyFormat cmd c.query_target (pyStrSource afi.source_address) afi.vrf_name)]
  else
    .ok []

/-- `Construct.traceroute`. -/
def Construct.traceroute (c : Construct) (env : Env) : Except ConstructError (List Artifact) := do
  let query_protocol ← targetProtocol env c.query_target
  let afiOpt := c.device_vrf.afiField query_protocol
  let cmd_type := get_cmd_type query_protocol (some c.query_vrf)
  if c.transport = "rest" then do
    let afi ← derefAfi query_protocol afiOpt
    let source ← derefSource afi.source_address
    .ok [Artifact.rest { query_type := "traceroute", vrf := afi.vrf_name, afi := cmd_type,
                         source := some source, target := c.query_target }]
  else if c.transport = "scrape" then do
    let cmd ← device_commands env c.device.commands cmd_type "traceroute"
    let afi ← derefAfi query_protocol afiOpt
    .ok [Artifact.cli (pyFormat cmd c.query_target (pyStrSource afi.source_address) afi.vrf_name)]
  else
    .ok []

/-- `Construct.bgp_route`: like ping/traceroute but the target is passed
through `format_target` (in both transport branches) and the REST payload
carries `source = None`. -/
def Construct.bgp_route (c : Construct) (env : Env) : Except ConstructError (List Artifact) := do
  let query_protocol ← targetProtocol env c.query_target
  let afiOpt := c.device_vrf.afiField query_protocol
  let cmd_type := get_cmd_type query_protocol (some c.query_vrf)
  if c.transport = "rest" then do
    let afi ← derefAfi query_protocol afiOpt
    .ok [Artifact.rest { query_type := "bgp_route", vrf := afi.vrf_name, afi := cmd_type,
                         source := none, target := c.format_target env c.query_target }]
  else if c.transport = "scrape" then do
    let cmd ← device_commands env c.device.commands cmd_type "bgp_route"
    let afi ← derefAfi query_protocol afiOpt
    .ok [Artifact.cli (pyFormat cmd (c.format_target env c.query_target)
                        (pyStrSource afi.source_address) afi.vrf_name)]
  else
    .ok []

/-- The items of `device_vrf.dict()` restricted to the keys "ipv4" and "ipv6".
Modelled from the spec: the VRF Record configuration model (external to this
core, loaded by the configuration collaborator) declares its per-family
sub-records in the order ipv4, ipv6, so the pydantic `dict()` enumeration
yields ipv4 before ipv6 (the spec fixes this enumeration order). -/
def VrfRecord.afiItems (v : VrfRecord) : List (String × Option AfiRecord) :=
  [("ipv4", v.ipv4), ("ipv6", v.ipv6)]

/-- The `afis` list built by bgp_community/bgp_aspath: the AFI keys whose
sub-record is populated (a present sub-record exports a non-empty, hence
truthy, dict; an absent one exports `None`, falsy). -/
def VrfRecord.populatedAfis (v : VrfRecord) : List String :=
  (v.afiItems.filter (fun kv => kv.2.isSome)).map Prod.fst

/-- One loop iteration of bgp_community/bgp_aspath for a single AFI key. -/
def communityItem (c : Construct) (env : Env) (qtype afi : String) :
    Except ConstructError (List Artifact) :=
  let afiOpt := c.device_vrf.afiField afi
  let cmd_type := get_cmd_type afi (some c.query_vrf)
  if c.transport = "rest" then do
    let afi_attr ← derefAfi afi afiOpt
    .ok [Artifact.rest { query_type := qtype, vrf := afi_attr.vrf_name, afi := cmd_type,
                         source := none, target := c.query_target }]
  else if c.transport = "scrape" then do
    let cmd ← device_commands env c.device.commands cmd_type qtype
    let afi_attr ← derefAfi afi afiOpt
    .ok [Artifact.cli (pyFormat cmd c.query_target
                        (pyStrSource afi_attr.source_address) afi_attr.vrf_name)]
  else
    .ok []

/-- The fan-out loop of bgp_community/bgp_aspath: iterate over the populated
AFI keys in order, appending the artifacts of each iteration. -/
def fanout (c : Construct) (env : Env) (qtype : String) :
    List String → Except ConstructError (List Artifact)
  | [] => .ok []
  | afi :: rest => do
    let part ← communityItem c env qtype afi
    let more ← fanout c env qtype rest
    .ok (part ++ more)

/-- `Construct.bgp_community`. -/
def Construct.bgp_community (c : Construct) (env : Env) : Except ConstructError (List Artifact) :=
  fanout c env "bgp_community" c.device_vrf.populatedAfis

/-- `Construct.bgp_aspath`. -/
def Construct.bgp_aspath (c : Construct) (env : Env) : Except ConstructError (List Artifact) :=
  fanout c env "bgp_aspath" c.device_vrf.populatedAfis

/-- Construct an instance and run one operation on it, as callers do. -/
def mkRun (device : Device) (qd : QueryData) (transport : String) (env : Env)
    (op : Construct → Env → Except ConstructError (List Artifact)) :
    Except ConstructError (List Artifact) :=
  (Construct.make device qd transport).bind (fun c => op c env)

/-! Concrete configuration fixtures used by witnesses and counterexamples. -/

/-- IPv4 sub-record with a source address. -/
def afi4X : AfiRecord := { vrf_name := "default", source_address := some "192.0.2.1" }

/-- IPv6 sub-record with a source address. -/
def afi6X : AfiRecord := { vrf_name := "default", source_address := some "2001:db8::1" }

/-- Default VRF populated with both address families. -/
def vrfX : VrfRecord := { name := "default", ipv4 := some afi4X, ipv6 := some afi6X }

/-- Device whose NOS is in the target-format-space set of `envX`. -/
def devX : Device := { nos := "cisco_ios", commands := "cisco_ios", vrfs := [vrfX] }

/-- A bgp_route-style prefix query in the default VRF. -/
def qX : QueryData := { query_target := "192.0.2.0/24", query_vrf := "default" }

/-- Environment: a total catalog, cisco_ios requires target space-escaping,
and the ip_network parse recognises the fixture targets. -/
def envX : Env :=
  { commands := fun nos afi qtype => some (nos ++ " " ++ afi ++ " " ++ qtype ++ " \x7btarget\x7d \x7bsource\x7d \x7bvrf\x7d"),
    target_format_space := ["cisco_ios"],
    ipVersion := fun t =>
      if t = "192.0.2.0/24" then some 4
      else if t = "192.0.2.1" then some 4
      else if t = "2001:db8::/32" then some 6
      else none }

/-- The constructed instance for `devX`/`qX` over the "rest" transport. -/
def cX : Construct :=
  { device := devX, query_data := qX, transport := "rest",
    query_target := "192.0.2.0/24", query_vrf := "default", device_vrf := vrfX }

/-- The same instance over the "scrape" transport. -/
def cS : Construct :=
  { device := devX, query_data := qX, transport := "scrape",
    query_target := "192.0.2.0/24", query_vrf := "default", device_vrf := vrfX }

/-- The same instance over an unknown transport. -/
def cT : Construct :=
  { device := devX, query_data := qX, transport := "telnet",
    query_target := "192.0.2.0/24", query_vrf := "default", device_vrf := vrfX }

/-- VRF with no ipv4 sub-record. -/
def vrfY : VrfRecord := { name := "default", ipv4 := none, ipv6 := some afi6X }

/-- Device holding only `vrfY`. -/
def devY : Device := { nos := "juniper", commands := "juniper", vrfs := [vrfY] }

/-- A bare IPv4 address query target in the default VRF. -/
def qY : QueryData := { query_target := "192.0.2.1", query_vrf := "default" }

/-- Instance targeting an IPv4 address against the ipv4-less `vrfY`. -/
def cY : Construct :=
  { device := devY, query_data := qY, transport := "rest",
    query_target := "192.0.2.1", query_vrf := "default", device_vrf := vrfY }

/-- IPv4 sub-record with an absent source address. -/
def afi4N : AfiRecord := { vrf_name := "default", source_address := none }

/-- VRF whose only sub-record lacks a source address. -/
def vrfN : VrfRecord := { name := "default", ipv4 := some afi4N, ipv6 := none }

/-- Device holding only `vrfN`. -/
def devN : Device := { nos := "cisco_ios", commands := "cisco_ios", vrfs := [vrfN] }

/-- Instance targeting an IPv4 address whose resolved sub-record lacks a
source address. -/
def cN : Construct :=
  { device := devN, query_data := qY, transport := "rest",
    query_target := "192.0.2.1", query_vrf := "default", device_vrf := vrfN }

/-- Environment with an empty command catalog (every lookup misses). -/
def envN : Env :=
  { commands := fun _ _ _ => none,
    target_format_space := [],
    ipVersion := fun t =>
      if t = "192.0.2.0/24" then some 4
      else if t = "192.0.2.1" then some 4
      else none }

end Hyperglass

namespace Hyperglass

/-- Bind on a successful Except computation. -/
@[simp]
theorem exBind_ok {α β : Type} (a : α) (f : α → Except ConstructError β) :
    (Except.ok a >>= f) = f a := rfl

/-- Bind on a failed Except computation. -/
@[simp]
theorem exBind_err {α β : Type} (e : ConstructError) (f : α → Except ConstructError β) :
    ((Except.error e : Except ConstructError α) >>= f) = Except.error e := rfl

/-- Explicit case tree of `Construct.ping`. -/
theorem ping_eq (c : Construct) (env : Env) :
    c.ping env =
      match env.ipVersion c.query_target with
      | none => .error (.invalidTarget c.query_target)
      | some v =>
        if c.transport = "rest" then
          match c.device_vrf.afiField ("ipv" ++ toString v) with
          | none => .error (.afiMismatch ("ipv" ++ toString v))
          | some afi =>
            match afi.source_address with
            | none => .error .sourceAddressMissing
            | some src =>
              .ok [Artifact.rest { query_type := "ping", vrf := afi.vrf_name,
                                   afi := get_cmd_type ("ipv" ++ toString v) (some c.query_vrf),
                                   source := some src, target := c.query_target }]
        else if c.transport = "scrape" then
          match env.commands c.device.commands
              (get_cmd_type ("ipv" ++ toString v) (some c.query_vrf)) "ping" with
          | none => .error (.templateNotFound c.device.commands
              (get_cmd_type ("ipv" ++ toString v) (some c.query_vrf)) "ping")
          | some cmd =>
            match c.device_vrf.afiField ("ipv" ++ toString v) with
            | none => .error (.afiMismatch ("ipv" ++ toString v))
            | some afi =>
              .ok [Artifact.cli (pyFormat cmd c.query_target
                (pyStrSource afi.source_address) afi.vrf_name)]
        else .ok [] := by
  unfold Construct.ping targetProtocol
  cases env.ipVersion c.query_target with
  | none => rfl
  | some v =>
    by_cases ht : c.transport = "rest"
    · simp only [exBind_ok, if_pos ht]
      cases ha : c.device_vrf.afiField ("ipv" ++ toString v) with
      | none => simp [derefAfi, ha]
      | some afi =>
        cases hsrc : afi.source_address <;>
          simp [derefAfi, derefSource, ha, hsrc]
    · by_cases hs : c.transport = "scrape"
      · simp only [exBind_ok, if_neg ht, if_pos hs, device_commands]
        cases hc : env.commands c.device.commands
            (get_cmd_type ("ipv" ++ toString v) (some c.query_vrf)) "ping" with
        | none => simp [hc]
        | some cmd =>
          cases ha : c.device_vrf.afiField ("ipv" ++ toString v) <;>
            simp [derefAfi, ha, hc]
      · simp only [exBind_ok, if_neg ht, if_neg hs]

/-- Explicit case tree of `Construct.traceroute`. -/
theorem traceroute_eq (c : Construct) (env : Env) :
    c.traceroute env =
      match env.ipVersion c.query_target with
      | none => .error (.invalidTarget c.query_target)
      | some v =>
        if c.transport = "rest" then
          match c.device_vrf.afiField ("ipv" ++ toString v) with
          | none => .error (.afiMismatch ("ipv" ++ toString v))
          | some afi =>
            match afi.source_address with
            | none => .error .sourceAddressMissing
            | some src =>
              .ok [Artifact.rest { query_type := "traceroute", vrf := afi.vrf_name,
                                   afi := get_cmd_type ("ipv" ++ toString v) (some c.query_vrf),
                                   source := some src, target := c.query_target }]
        else if c.transport = "scrape" then
          match env.commands c.device.commands
              (get_cmd_type ("ipv" ++ toString v) (some c.query_vrf)) "traceroute" with
          | none => .error (.templateNotFound c.device.commands
              (get_cmd_type ("ipv" ++ toString v) (some c.query_vrf)) "traceroute")
          | some cmd =>
            match c.device_vrf.afiField ("ipv" ++ toString v) with
            | none => .error (.afiMismatch ("ipv" ++ toString v))
            | some afi =>
              .ok [Artifact.cli (pyFormat cmd c.query_target
                (pyStrSource afi.source_address) afi.vrf_name)]
        else .ok [] := by
  unfold Construct.traceroute targetProtocol
  cases env.ipVersion c.query_target with
  | none => rfl
  | some v =>
    by_cases ht : c.transport = "rest"
    · simp only [exBind_ok, if_pos ht]
      cases ha : c.device_vrf.afiField ("ipv" ++ toString v) with
      | none => simp [derefAfi, ha]
      | some afi =>
        cases hsrc : afi.source_address <;>
          simp [derefAfi, derefSource, ha, hsrc]
    · by_cases hs : c.transport = "scrape"
      · simp only [exBind_ok, if_neg ht, if_pos hs, device_commands]
        cases hc : env.commands c.device.commands
            (get_cmd_type ("ipv" ++ toString v) (some c.query_vrf)) "traceroute" with
        | none => simp [hc]
        | some cmd =>
          cases ha : c.device_vrf.afiField ("ipv" ++ toString v) <;>
            simp [derefAfi, ha, hc]
      · simp only [exBind_ok, if_neg ht, if_neg hs]

/-- Explicit case tree of `Construct.bgp_route`: the target is passed through
`format_target` in BOTH the REST and the CLI branch. -/
theorem bgp_route_eq (c : Construct) (env : Env) :
    c.bgp_route env =
      match env.ipVersion c.query_target with
      | none => .error (.invalidTarget c.query_target)
      | some v =>
        if c.transport = "rest" then
          match c.device_vrf.afiField ("ipv" ++ toString v) with
          | none => .error (.afiMismatch ("ipv" ++ toString v))
          | some afi =>
            .ok [Artifact.rest { query_type := "bgp_route", vrf := afi.vrf_name,
                                 afi := get_cmd_type ("ipv" ++ toString v) (some c.query_vrf),
                                 source := none,
                                 target := c.format_target env c.query_target }]
        else if c.transport = "scrape" then
          match env.commands c.device.commands
              (get_cmd_type ("ipv" ++ toString v) (some c.query_vrf)) "bgp_route" with
          | none => .error (.templateNotFound c.device.commands
              (get_cmd_type ("ipv" ++ toString v) (some c.query_vrf)) "bgp_route")
          | some cmd =>
            match c.device_vrf.afiField ("ipv" ++ toString v) with
            | none => .error (.afiMismatch ("ipv" ++ toString v))
            | some afi =>
              .ok [Artifact.cli (pyFormat cmd (c.format_target env c.query_target)
                (pyStrSource afi.source_address) afi.vrf_name)]
        else .ok [] := by
  unfold Construct.bgp_route targetProtocol
  cases env.ipVersion c.query_target with
  | none => rfl
  | some v =>
    by_cases ht : c.transport = "rest"
    · simp only [exBind_ok, if_pos ht]
      cases ha : c.device_vrf.afiField ("ipv" ++ toString v) <;>
        simp [derefAfi, ha]
    · by_cases hs : c.transport = "scrape"
      · simp only [exBind_ok, if_neg ht, if_pos hs, device_commands]
        cases hc : env.commands c.device.commands
            (get_cmd_type ("ipv" ++ toString v) (some c.query_vrf)) "bgp_route" with
        | none => simp [hc]
        | some cmd =>
          cases ha : c.device_vrf.afiField ("ipv" ++ toString v) <;>
            simp [derefAfi, ha, hc]
      · simp only [exBind_ok, if_neg ht, if_neg hs]

/-- `getattr` with the literal key "ipv4" reads the ipv4 field. -/
@[simp]
theorem afiField_ipv4 (v : VrfRecord) : v.afiField "ipv4" = v.ipv4 := rfl

/-- `getattr` with the literal key "ipv6" reads the ipv6 field. -/
@[simp]
theorem afiField_ipv6 (v : VrfRecord) : v.afiField "ipv6" = v.ipv6 := rfl

/-- Explicit case tree of one bgp_community/bgp_aspath loop iteration. -/
theorem communityItem_eq (c : Construct) (env : Env) (qtype afi : String) :
    communityItem c env qtype afi =
      if c.transport = "rest" then
        match c.device_vrf.afiField afi with
        | none => .error (.afiMismatch afi)
        | some a =>
          .ok [Artifact.rest { query_type := qtype, vrf := a.vrf_name,
                               afi := get_cmd_type afi (some c.query_vrf),
                               source := none, target := c.query_target }]
      else if c.transport = "scrape" then
        match env.commands c.device.commands (get_cmd_type afi (some c.query_vrf)) qtype with
        | none => .error (.templateNotFound c.device.commands
            (get_cmd_type afi (some c.query_vrf)) qtype)
        | some cmd =>
          match c.device_vrf.afiField afi with
          | none => .error (.afiMismatch afi)
          | some a =>
            .ok [Artifact.cli (pyFormat cmd c.query_target
              (pyStrSource a.source_address) a.vrf_name)]
      else .ok [] := by
  unfold communityItem
  by_cases ht : c.transport = "rest"
  · simp only [if_pos ht]
    cases ha : c.device_vrf.afiField afi <;> simp [derefAfi, ha]
  · by_cases hs : c.transport = "scrape"
    · simp only [if_neg ht, if_pos hs, device_commands]
      cases hc : env.commands c.device.commands (get_cmd_type afi (some c.query_vrf)) qtype with
      | none => simp [hc]
      | some cmd =>
        cases ha : c.device_vrf.afiField afi <;> simp [derefAfi, ha, hc]
    · simp only [if_neg ht, if_neg hs]

/-- The populated-AFI key list, by cases on the two optional sub-records. -/
theorem populatedAfis_eq (v : VrfRecord) :
    v.populatedAfis =
      (if v.ipv4.isSome then ["ipv4"] else []) ++ (if v.ipv6.isSome then ["ipv6"] else []) := by
  unfold VrfRecord.populatedAfis VrfRecord.afiItems
  cases v.ipv4 <;> cases v.ipv6 <;> simp

/-- For the "rest" transport, the fan-out of bgp_community/bgp_aspath over the
populated AFIs succeeds and returns one payload per populated family, ipv4
first. -/
theorem fanout_rest (c : Construct) (env : Env) (qtype : String)
    (ht : c.transport = "rest") :
    fanout c env qtype c.device_vrf.populatedAfis =
      .ok ((match c.device_vrf.ipv4 with
            | none => []
            | some a =>
              [Artifact.rest { query_type := qtype, vrf := a.vrf_name,
                               afi := get_cmd_type "ipv4" (some c.query_vrf),
                               source := none, target := c.query_target }]) ++
           (match c.device_vrf.ipv6 with
            | none => []
            | some a =>
              [Artifact.rest { query_type := qtype, vrf := a.vrf_name,
                               afi := get_cmd_type "ipv6" (some c.query_vrf),
                               source := none, target := c.query_target }])) := by
  rw [populatedAfis_eq]
  cases h4 : c.device_vrf.ipv4 <;> cases h6 : c.device_vrf.ipv6 <;>
    simp [fanout, communityItem_eq, ht, h4, h6]

/-- For the "scrape" transport with every relevant catalog entry present, the
fan-out of bgp_community/bgp_aspath succeeds and returns one rendered CLI
command per populated family, ipv4 first. -/
theorem fanout_scrape (c : Construct) (env : Env) (qtype : String)
    (hs : c.transport = "scrape")
    (hsome : ∀ ct qt, (env.commands c.device.commands ct qt).isSome) :
    fanout c env qtype c.device_vrf.populatedAfis =
      .ok ((match c.device_vrf.ipv4 with
            | none => []
            | some a =>
              [Artifact.cli (pyFormat
                ((env.commands c.device.commands
                  (get_cmd_type "ipv4" (some c.query_vrf)) qtype).getD "")
                c.query_target (pyStrSource a.source_address) a.vrf_name)]) ++
           (match c.device_vrf.ipv6 with
            | none => []
            | some a =>
              [Artifact.cli (pyFormat
                ((env.commands c.device.commands
                  (get_cmd_type "ipv6" (some c.query_vrf)) qtype).getD "")
                c.query_target (pyStrSource a.source_address) a.vrf_name)])) := by
  obtain ⟨cmd4, hc4⟩ := Option.isSome_iff_exists.mp
    (hsome (get_cmd_type "ipv4" (some c.query_vrf)) qtype)
  obtain ⟨cmd6, hc6⟩ := Option.isSome_iff_exists.mp
    (hsome (get_cmd_type "ipv6" (some c.query_vrf)) qtype)
  rw [populatedAfis_eq]
  cases h4 : c.device_vrf.ipv4 <;> cases h6 : c.device_vrf.ipv6 <;>
    simp [fanout, communityItem_eq, hs, h4, h6, hc4, hc6]

/-- Every artifact produced by ping is built for the single query target and
query VRF of the invocation: a REST payload embedding the raw target and the
command category derived from query_vrf, or a CLI command rendered from the
raw target — only the family, the sub-record's source and its table name
vary. -/
theorem ping_artifact_src (c : Construct) (env : Env) (l : List Artifact)
    (h : c.ping env = .ok l) (x : Artifact) (hx : x ∈ l) :
    ∃ proto a, c.device_vrf.afiField proto = some a ∧
      ((∃ src, a.source_address = some src ∧
        x = Artifact.rest { query_type := "ping", vrf := a.vrf_name,
                            afi := get_cmd_type proto (some c.query_vrf),
                            source := some src, target := c.query_target }) ∨
       (∃ cmd, env.commands c.device.commands
            (get_cmd_type proto (some c.query_vrf)) "ping" = some cmd ∧
        x = Artifact.cli (pyFormat cmd c.query_target
            (pyStrSource a.source_address) a.vrf_name))) := by
  cases hv : env.ipVersion c.query_target with
  | none => rw [ping_eq, hv] at h; simp at h
  | some v =>
    by_cases ht : c.transport = "rest"
    · cases ha : c.device_vrf.afiField ("ipv" ++ toString v) with
      | none => rw [ping_eq, hv] at h; simp [ht, ha] at h
      | some afi =>
        cases hsrc : afi.source_address with
        | none => rw [ping_eq, hv] at h; simp [ht, ha, hsrc] at h
        | some src =>
          rw [ping_eq, hv] at h
          simp [ht, ha, hsrc] at h
          subst h
          simp only [List.mem_singleton] at hx
          subst hx
          exact ⟨"ipv" ++ toString v, afi, ha, Or.inl ⟨src, hsrc, rfl⟩⟩
    · by_cases hsc : c.transport = "scrape"
      · cases hc : env.commands c.device.commands
            (get_cmd_type ("ipv" ++ toString v) (some c.query_vrf)) "ping" with
        | none => rw [ping_eq, hv] at h; simp [ht, hsc, hc] at h
        | some cmd =>
          cases ha : c.device_vrf.afiField ("ipv" ++ toString v) with
          | none => rw [ping_eq, hv] at h; simp [ht, hsc, hc, ha] at h
          | some afi =>
            rw [ping_eq, hv] at h
            simp [ht, hsc, hc, ha] at h
            subst h
            simp only [List.mem_singleton] at hx
            subst hx
            exact ⟨"ipv" ++ toString v, afi, ha, Or.inr ⟨cmd, hc, rfl⟩⟩
      · rw [ping_eq, hv] at h
        simp [ht, hsc] at h
        subst h
        simp at hx

/-- Every artifact produced by traceroute is built for the single query target
and query VRF of the invocation, analogously to ping. -/
theorem traceroute_artifact_src (c : Construct) (env : Env) (l : List Artifact)
    (h : c.traceroute env = .ok l) (x : Artifact) (hx : x ∈ l) :
    ∃ proto a, c.device_vrf.afiField proto = some a ∧
      ((∃ src, a.source_address = some src ∧
        x = Artifact.rest { query_type := "traceroute", vrf := a.vrf_name,
                            afi := get_cmd_type proto (some c.query_vrf),
                            source := some src, target := c.query_target }) ∨
       (∃ cmd, env.commands c.device.commands
            (get_cmd_type proto (some c.query_vrf)) "traceroute" = some cmd ∧
        x = Artifact.cli (pyFormat cmd c.query_target
            (pyStrSource a.source_address) a.vrf_name))) := by
  cases hv : env.ipVersion c.query_target with
  | none => rw [traceroute_eq, hv] at h; simp at h
  | some v =>
    by_cases ht : c.transport = "rest"
    · cases ha : c.device_vrf.afiField ("ipv" ++ toString v) with
      | none => rw [traceroute_eq, hv] at h; simp [ht, ha] at h
      | some afi =>
        cases hsrc : afi.source_address with
        | none => rw [traceroute_eq, hv] at h; simp [ht, ha, hsrc] at h
        | some src =>
          rw [traceroute_eq, hv] at h
          simp [ht, ha, hsrc] at h
          subst h
          simp only [List.mem_singleton] at hx
          subst hx
          exact ⟨"ipv" ++ toString v, afi, ha, Or.inl ⟨src, hsrc, rfl⟩⟩
    · by_cases hsc : c.transport = "scrape"
      · cases hc : env.commands c.device.commands
            (get_cmd_type ("ipv" ++ toString v) (some c.query_vrf)) "traceroute" with
        | none => rw [traceroute_eq, hv] at h; simp [ht, hsc, hc] at h
        | some cmd =>
          cases ha : c.device_vrf.afiField ("ipv" ++ toString v) with
          | none => rw [traceroute_eq, hv] at h; simp [ht, hsc, hc, ha] at h
          | some afi =>
            rw [traceroute_eq, hv] at h
            simp [ht, hsc, hc, ha] at h
            subst h
            simp only [List.mem_singleton] at hx
            subst hx
            exact ⟨"ipv" ++ toString v, afi, ha, Or.inr ⟨cmd, hc, rfl⟩⟩
      · rw [traceroute_eq, hv] at h
        simp [ht, hsc] at h
        subst h
        simp at hx

/-- Every artifact produced by bgp_route is built for the single (formatted)
query target and the query VRF of the invocation. -/
theorem bgp_route_artifact_src (c : Construct) (env : Env) (l : List Artifact)
    (h : c.bgp_route env = .ok l) (x : Artifact) (hx : x ∈ l) :
    ∃ proto a, c.device_vrf.afiField proto = some a ∧
      (x = Artifact.rest { query_type := "bgp_route", vrf := a.vrf_name,
                           afi := get_cmd_type proto (some c.query_vrf),
                           source := none,
                           target := c.format_target env c.query_target } ∨
       (∃ cmd, env.commands c.device.commands
            (get_cmd_type proto (some c.query_vrf)) "bgp_route" = some cmd ∧
        x = Artifact.cli (pyFormat cmd (c.format_target env c.query_target)
            (pyStrSource a.source_address) a.vrf_name))) := by
  cases hv : env.ipVersion c.query_target with
  | none => rw [bgp_route_eq, hv] at h; simp at h
  | some v =>
    by_cases ht : c.transport = "rest"
    · cases ha : c.device_vrf.afiField ("ipv" ++ toString v) with
      | none => rw [bgp_route_eq, hv] at h; simp [ht, ha] at h
      | some afi =>
        rw [bgp_route_eq, hv] at h
        simp [ht, ha] at h
        subst h
        simp only [List.mem_singleton] at hx
        subst hx
        exact ⟨"ipv" ++ toString v, afi, ha, Or.inl rfl⟩
    · by_cases hsc : c.transport = "scrape"
      · cases hc : env.commands c.device.commands
            (get_cmd_type ("ipv" ++ toString v) (some c.query_vrf)) "bgp_route" with
        | none => rw [bgp_route_eq, hv] at h; simp [ht, hsc, hc] at h
        | some cmd =>
          cases ha : c.device_vrf.afiField ("ipv" ++ toString v) with
          | none => rw [bgp_route_eq, hv] at h; simp [ht, hsc, hc, ha] at h
          | some afi =>
            rw [bgp_route_eq, hv] at h
            simp [ht, hsc, hc, ha] at h
            subst h
            simp only [List.mem_singleton] at hx
            subst hx
            exact ⟨"ipv" ++ toString v, afi, ha, Or.inr ⟨cmd, hc, rfl⟩⟩
      · rw [bgp_route_eq, hv] at h
        simp [ht, hsc] at h
        subst h
        simp at hx

/-- Every artifact of one fan-out iteration is built for the invocation's
query target and query VRF: only the iterated family's sub-record data
varies. -/
theorem communityItem_artifact_src (c : Construct) (env : Env) (qtype afi : String)
    (part : List Artifact) (h : communityItem c env qtype afi = .ok part)
    (x : Artifact) (hx : x ∈ part) :
    ∃ a, c.device_vrf.afiField afi = some a ∧
      (x = Artifact.rest { query_type := qtype, vrf := a.vrf_name,
                           afi := get_cmd_type afi (some c.query_vrf),
                           source := none, target := c.query_target } ∨
       (∃ cmd, env.commands c.device.commands
            (get_cmd_type afi (some c.query_vrf)) qtype = some cmd ∧
        x = Artifact.cli (pyFormat cmd c.query_target
            (pyStrSource a.source_address) a.vrf_name))) := by
  by_cases ht : c.transport = "rest"
  · cases ha : c.device_vrf.afiField afi with
    | none => rw [communityItem_eq] at h; simp [ht, ha] at h
    | some a =>
      rw [communityItem_eq] at h
      simp [ht, ha] at h
      subst h
      simp only [List.mem_singleton] at hx
      subst hx
      exact ⟨a, rfl, Or.inl rfl⟩
  · by_cases hsc : c.transport = "scrape"
    · cases hc : env.commands c.device.commands
          (get_cmd_type afi (some c.query_vrf)) qtype with
      | none => rw [communityItem_eq] at h; simp [ht, hsc, hc] at h
      | some cmd =>
        cases ha : c.device_vrf.afiField afi with
        | none => rw [communityItem_eq] at h; simp [ht, hsc, hc, ha] at h
        | some a =>
          rw [communityItem_eq] at h
          simp [ht, hsc, hc, ha] at h
          subst h
          simp only [List.mem_singleton] at hx
          subst hx
          exact ⟨a, rfl, Or.inr ⟨cmd, rfl, rfl⟩⟩
    · rw [communityItem_eq] at h
      simp [ht, hsc] at h
      subst h
      simp at hx

/-- Every artifact of the whole fan-out loop comes from one iterated family
key and is built for the invocation's query target and query VRF. -/
theorem fanout_artifact_src (c : Construct) (env : Env) (qtype : String) :
    ∀ (afis : List String) (l : List Artifact), fanout c env qtype afis = .ok l →
      ∀ x, x ∈ l → ∃ afi a, afi ∈ afis ∧ c.device_vrf.afiField afi = some a ∧
        (x = Artifact.rest { query_type := qtype, vrf := a.vrf_name,
                             afi := get_cmd_type afi (some c.query_vrf),
                             source := none, target := c.query_target } ∨
         (∃ cmd, env.commands c.device.commands
              (get_cmd_type afi (some c.query_vrf)) qtype = some cmd ∧
          x = Artifact.cli (pyFormat cmd c.query_target
              (pyStrSource a.source_address) a.vrf_name))) := by
  intro afis
  induction afis with
  | nil =>
    intro l h x hx
    simp only [fanout, Except.ok.injEq] at h
    subst h
    simp at hx
  | cons a rest ih =>
    intro l h x hx
    rw [fanout] at h
    cases hpart : communityItem c env qtype a <;> rw [hpart] at h
    · exact absurd h (by simp)
    case ok part =>
      cases hmore : fanout c env qtype rest <;> rw [hmore] at h
      · exact absurd h (by simp)
      case ok more =>
        simp only [exBind_ok, Except.ok.injEq] at h
        subst h
        rcases List.mem_append.mp hx with hmem | hmem
        · obtain ⟨rec, hrec, hshape⟩ :=
            communityItem_artifact_src c env qtype a part hpart x hmem
          exact ⟨a, rec, List.mem_cons_self a rest, hrec, hshape⟩
        · obtain ⟨afi, rec, hafi, hrec, hshape⟩ := ih more hmore x hmem
          exact ⟨afi, rec, List.mem_cons_of_mem a hafi, hrec, hshape⟩

/-- Every REST payload produced by ping has query_type "ping", carries the raw
query target, and a present source address. -/
theorem ping_rest_payload (c : Construct) (env : Env) (l : List Artifact)
    (h : c.ping env = .ok l) (p : RestPayload) (hp : Artifact.rest p ∈ l) :
    p.query_type = "ping" ∧ p.target = c.query_target ∧ p.source.isSome := by
  rw [ping_eq] at h
  split at h
  · exact absurd h (by simp)
  · split at h
    · split at h
      · exact absurd h (by simp)
      · split at h
        · exact absurd h (by simp)
        · simp only [Except.ok.injEq] at h
          subst h
          simp only [List.mem_singleton, Artifact.rest.injEq] at hp
          subst hp
          exact ⟨rfl, rfl, rfl⟩
    · split at h
      · split at h
        · exact absurd h (by simp)
        · split at h
          · exact absurd h (by simp)
          · simp only [Except.ok.injEq] at h
            subst h
            simp at hp
      · simp only [Except.ok.injEq] at h
        subst h
        simp at hp

/-- Every REST payload produced by traceroute has query_type "traceroute",
carries the raw query target, and a present source address. -/
theorem traceroute_rest_payload (c : Construct) (env : Env) (l : List Artifact)
    (h : c.traceroute env = .ok l) (p : RestPayload) (hp : Artifact.rest p ∈ l) :
    p.query_type = "traceroute" ∧ p.target = c.query_target ∧ p.source.isSome := by
  rw [traceroute_eq] at h
  split at h
  · exact absurd h (by simp)
  · split at h
    · split at h
      · exact absurd h (by simp)
      · split at h
        · exact absurd h (by simp)
        · simp only [Except.ok.injEq] at h
          subst h
          simp only [List.mem_singleton, Artifact.rest.injEq] at hp
          subst hp
          exact ⟨rfl, rfl, rfl⟩
    · split at h
      · split at h
        · exact absurd h (by simp)
        · split at h
          · exact absurd h (by simp)
          · simp only [Except.ok.injEq] at h
            subst h
            simp at hp
      · simp only [Except.ok.injEq] at h
        subst h
        simp at hp

/-- Every REST payload produced by bgp_route has query_type "bgp_route", a
null source, and carries the formatted target. -/
theorem bgp_route_rest_payload (c : Construct) (env : Env) (l : List Artifact)
    (h : c.bgp_route env = .ok l) (p : RestPayload) (hp : Artifact.rest p ∈ l) :
    p.query_type = "bgp_route" ∧ p.target = c.format_target env c.query_target ∧
      p.source = none := by
  rw [bgp_route_eq] at h
  split at h
  · exact absurd h (by simp)
  · split at h
    · split at h
      · exact absurd h (by simp)
      · simp only [Except.ok.injEq] at h
        subst h
        simp only [List.mem_singleton, Artifact.rest.injEq] at hp
        subst hp
        exact ⟨rfl, rfl, rfl⟩
    · split at h
      · split at h
        · exact absurd h (by simp)
        · split at h
          · exact absurd h (by simp)
          · simp only [Except.ok.injEq] at h
            subst h
            simp at hp
      · simp only [Except.ok.injEq] at h
        subst h
        simp at hp

/-- Every REST payload produced by one fan-out iteration carries the given
query type, a null source, and the raw query target. -/
theorem communityItem_rest_payload (c : Construct) (env : Env) (qtype afi : String)
    (part : List Artifact) (h : communityItem c env qtype afi = .ok part)
    (p : RestPayload) (hp : Artifact.rest p ∈ part) :
    p.query_type = qtype ∧ p.target = c.query_target ∧ p.source = none := by
  rw [communityItem_eq] at h
  split at h
  · split at h
    · exact absurd h (by simp)
    · simp only [Except.ok.injEq] at h
      subst h
      simp only [List.mem_singleton, Artifact.rest.injEq] at hp
      subst hp
      exact ⟨rfl, rfl, rfl⟩
  · split at h
    · split at h
      · exact absurd h (by simp)
      · split at h
        · exact absurd h (by simp)
        · simp only [Except.ok.injEq] at h
          subst h
          simp at hp
    · simp only [Except.ok.injEq] at h
      subst h
      simp at hp

/-- Every REST payload produced by the whole fan-out loop carries the given
query type, a null source, and the raw query target. -/
theorem fanout_rest_payload (c : Construct) (env : Env) (qtype : String) :
    ∀ (afis : List String) (l : List Artifact), fanout c env qtype afis = .ok l →
      ∀ p, Artifact.rest p ∈ l →
        p.query_type = qtype ∧ p.target = c.query_target ∧ p.source = none := by
  intro afis
  induction afis with
  | nil =>
    intro l h p hp
    simp only [fanout, Except.ok.injEq] at h
    subst h
    simp at hp
  | cons a rest ih =>
    intro l h p hp
    rw [fanout] at h
    cases hpart : communityItem c env qtype a <;> rw [hpart] at h
    · exact absurd h (by simp)
    case ok part =>
      cases hmore : fanout c env qtype rest <;> rw [hmore] at h
      · exact absurd h (by simp)
      case ok more =>
        simp only [exBind_ok, Except.ok.injEq] at h
        subst h
        rcases List.mem_append.mp hp with hmem | hmem
        · exact communityItem_rest_payload c env qtype a part hpart p hmem
        · exact ih more hmore p hmem

/-- With a transport that is neither "rest" nor "scrape", the fan-out loop
appends nothing at every iteration. -/
theorem fanout_other (c : Construct) (env : Env) (qtype : String)
    (h1 : c.transport ≠ "rest") (h2 : c.transport ≠ "scrape") :
    ∀ afis : List String, fanout c env qtype afis = .ok [] := by
  intro afis
  induction afis with
  | nil => rfl
  | cons a rest ih =>
    rw [fanout]
    rw [communityItem_eq, if_neg h1, if_neg h2, ih]
    rfl

/-- The accumulator-passing scan of `get_device_vrf` keeps the LAST matching
record: it equals the first match of the reversed list (falling back to the
initial accumulator). -/
theorem foldl_lastMatch (v : String) (l : List VrfRecord) :
    ∀ acc, l.foldl (fun acc r => if r.name == v then some r else acc) acc
      = (l.reverse.find? (fun r => r.name == v)).or acc := by
  induction l with
  | nil => intro acc; simp
  | cons r t ih =>
    intro acc
    simp only [List.foldl_cons, List.reverse_cons, List.find?_append, ih]
    cases h : r.name == v <;> simp [h, Option.or_assoc]

/-- Claim C2: construction resolves the VRF Record on the device whose name
equals query_vrf; with several records of that name, the last in the device
list wins (the first match of the reversed list); with none, construction
raises vrfMismatch carrying the requested VRF name.  A resolved record is
indeed named query_vrf and drawn from the device's list. -/
theorem C2_vrf_resolution (d : Device) (qd : QueryData) (t : String) :
    (Construct.make d qd t =
      match d.vrfs.reverse.find? (fun r => r.name == qd.query_vrf) with
      | some r => .ok { device := d, query_data := qd, transport := t,
                        query_target := qd.query_target, query_vrf := qd.query_vrf,
                        device_vrf := r }
      | none => .error (.vrfMismatch [qd.query_vrf])) ∧
    (∀ r, d.vrfs.reverse.find? (fun x => x.name == qd.query_vrf) = some r →
      r.name = qd.query_vrf ∧ r ∈ d.vrfs) := by
  constructor
  · unfold Construct.make get_device_vrf
    rw [foldl_lastMatch]
    cases d.vrfs.reverse.find? (fun r => r.name == qd.query_vrf) <;>
      simp [Option.or, Except.bind, Bind.bind]
  · intro r hr
    have h1 := List.find?_some hr
    have h2 := List.mem_of_find?_eq_some hr
    exact ⟨by simpa using h1, by simpa using h2⟩

/-- Witness for C2 at the concrete fixture device. -/
theorem C2_vrf_resolution_witness :
    Construct.make devX qX "rest" = .ok cX ∧ vrfX.name = "default" ∧ vrfX ∈ devX.vrfs := by
  have h := C2_vrf_resolution devX qX "rest"
  have h2 := h.2 vrfX (by decide)
  refine ⟨?_, by simpa [qX] using h2.1, h2.2⟩
  rw [h.1]
  rfl

/-- The two command categories produced by get_cmd_type are always distinct. -/
theorem vpn_ne_default (afi : String) : afi ++ "_vpn" ≠ afi ++ "_default" := by
  intro h
  have hlen := congrArg String.length h
  rw [String.length_append, String.length_append] at hlen
  have h4 : ("_vpn" : String).length = 4 := by decide
  have h8 : ("_default" : String).length = 8 := by decide
  omega

/-- Claim C6: get_cmd_type returns "{afi}_vpn" exactly when the VRF argument
is a non-empty string other than the literal "default", and "{afi}_default"
otherwise; including the three concrete evaluations from the spec. -/
theorem C6_get_cmd_type (afi : String) (v : Option String) :
    (get_cmd_type afi v = afi ++ "_vpn" ↔ v ≠ none ∧ v ≠ some "" ∧ v ≠ some "default") ∧
    (get_cmd_type afi v = afi ++ "_default" ↔ ¬(v ≠ none ∧ v ≠ some "" ∧ v ≠ some "default")) ∧
    get_cmd_type "ipv4" (some "default") = "ipv4_default" ∧
    get_cmd_type "ipv4" (some "CUSTOMER-A") = "ipv4_vpn" ∧
    get_cmd_type "ipv6" none = "ipv6_default" := by
  have hne := vpn_ne_default afi
  have hne2 := Ne.symm hne
  refine ⟨?_, ?_, by decide, by decide, by decide⟩ <;>
  · cases v with
    | none => simp [get_cmd_type, pyTruthyStr, hne, hne2]
    | some s =>
      by_cases hs : s = ""
      · subst hs; simp [get_cmd_type, pyTruthyStr, hne, hne2]
      · by_cases hd : s = "default"
        · subst hd; simp [get_cmd_type, pyTruthyStr, hne, hne2]
        · simp [get_cmd_type, pyTruthyStr, hs, hd, hne, hne2]

/-- Witness for C6 at concrete arguments, discharging the iff conditions. -/
theorem C6_get_cmd_type_witness :
    get_cmd_type "ipv4" (some "CUSTOMER-A") = "ipv4" ++ "_vpn" ∧
    get_cmd_type "ipv6" none = "ipv6" ++ "_default" :=
  ⟨(C6_get_cmd_type "ipv4" (some "CUSTOMER-A")).1.mpr (by decide),
   (C6_get_cmd_type "ipv6" none).2.1.mpr (by decide)⟩

/-- Claim C1 counterexample: a bgp_route query over the "rest" transport on a
device whose NOS ("cisco_ios") is in the target-space-escaping set produces an
API payload whose target field is the ESCAPED "192.0.2.0 24", not the
unmodified query_target "192.0.2.0/24": construct.py applies format_target in
the REST branch as well (construct.py line 222). -/
theorem C1_counterexample :
    mkRun devX qX "rest" envX Construct.bgp_route =
      .ok [Artifact.rest { query_type := "bgp_route", vrf := "default",
                           afi := "ipv4_default", source := none,
                           target := "192.0.2.0 24" }] ∧
    ("192.0.2.0 24" : String) ≠ "192.0.2.0/24" :=
  ⟨rfl, by decide⟩

/-- Claim C1 (amended): for bgp_route, the API (rest) payload's target field
carries `format_target(query_target)` — i.e. with every "/" replaced by a
space exactly when the device NOS is in the external target-space-escaping
set — the same transform applied to CLI artifacts, not the unmodified
query_target. -/
theorem C1_rest_target_escaped (c : Construct) (env : Env) (l : List Artifact)
    (h : c.bgp_route env = .ok l) (p : RestPayload) (hp : Artifact.rest p ∈ l) :
    p.target = c.format_target env c.query_target ∧
    (c.device.nos ∈ env.target_format_space → p.target = replaceSlash c.query_target) := by
  have key : p.target = c.format_target env c.query_target :=
    (bgp_route_rest_payload c env l h p hp).2.1
  refine ⟨key, fun hm => ?_⟩
  rw [key]
  unfold Construct.format_target
  rw [if_pos hm]

/-- The concrete REST payload of the C1 fixture run. -/
def pC1 : RestPayload :=
  { query_type := "bgp_route", vrf := "default", afi := "ipv4_default",
    source := none, target := "192.0.2.0 24" }

/-- Witness for the amended C1 at the concrete fixture. -/
theorem C1_rest_target_escaped_witness :
    pC1.target = cX.format_target envX cX.query_target ∧
    (cX.device.nos ∈ envX.target_format_space → pC1.target = replaceSlash cX.query_target) :=
  C1_rest_target_escaped cX envX [Artifact.rest pC1] rfl pC1 (by simp)

/-- Claim C3: every bgp_community/bgp_aspath invocation returns exactly one
artifact per address family populated on the resolved VRF Record, ordered ipv4
before ipv6, and an absent family contributes no artifact and raises no error:
over the "rest" transport unconditionally, and over the "scrape" (CLI)
transport whenever the catalog resolves the needed templates (a missing
template instead aborts with templateNotFound, claim C7). -/
theorem C3_fanout_per_family (c : Construct) (env : Env) :
    (c.transport = "rest" →
      (c.bgp_community env =
        .ok ((match c.device_vrf.ipv4 with
              | none => []
              | some a =>
                [Artifact.rest { query_type := "bgp_community", vrf := a.vrf_name,
                                 afi := get_cmd_type "ipv4" (some c.query_vrf),
                                 source := none, target := c.query_target }]) ++
             (match c.device_vrf.ipv6 with
              | none => []
              | some a =>
                [Artifact.rest { query_type := "bgp_community", vrf := a.vrf_name,
                                 afi := get_cmd_type "ipv6" (some c.query_vrf),
                                 source := none, target := c.query_target }]))) ∧
      (c.bgp_aspath env =
        .ok ((match c.device_vrf.ipv4 with
              | none => []
              | some a =>
                [Artifact.rest { query_type := "bgp_aspath", vrf := a.vrf_name,
                                 afi := get_cmd_type "ipv4" (some c.query_vrf),
                                 source := none, target := c.query_target }]) ++
             (match c.device_vrf.ipv6 with
              | none => []
              | some a =>
                [Artifact.rest { query_type := "bgp_aspath", vrf := a.vrf_name,
                                 afi := get_cmd_type "ipv6" (some c.query_vrf),
                                 source := none, target := c.query_target }])))) ∧
    (c.transport = "scrape" →
      (∀ ct qt, (env.commands c.device.commands ct qt).isSome) →
      (c.bgp_community env =
        .ok ((match c.device_vrf.ipv4 with
              | none => []
              | some a =>
                [Artifact.cli (pyFormat
                  ((env.commands c.device.commands
                    (get_cmd_type "ipv4" (some c.query_vrf)) "bgp_community").getD "")
                  c.query_target (pyStrSource a.source_address) a.vrf_name)]) ++
             (match c.device_vrf.ipv6 with
              | none => []
              | some a =>
                [Artifact.cli (pyFormat
                  ((env.commands c.device.commands
                    (get_cmd_type "ipv6" (some c.query_vrf)) "bgp_community").getD "")
                  c.query_target (pyStrSource a.source_address) a.vrf_name)]))) ∧
      (c.bgp_aspath env =
        .ok ((match c.device_vrf.ipv4 with
              | none => []
              | some a =>
                [Artifact.cli (pyFormat
                  ((env.commands c.device.commands
                    (get_cmd_type "ipv4" (some c.query_vrf)) "bgp_aspath").getD "")
                  c.query_target (pyStrSource a.source_address) a.vrf_name)]) ++
             (match c.device_vrf.ipv6 with
              | none => []
              | some a =>
                [Artifact.cli (pyFormat
                  ((env.commands c.device.commands
                    (get_cmd_type "ipv6" (some c.query_vrf)) "bgp_aspath").getD "")
                  c.query_target (pyStrSource a.source_address) a.vrf_name)])))) ∧
    ((c.transport = "rest" ∨
        (c.transport = "scrape" ∧
          ∀ ct qt, (env.commands c.device.commands ct qt).isSome)) →
      ∀ l, c.bgp_community env = .ok l ∨ c.bgp_aspath env = .ok l →
        l.length = (if c.device_vrf.ipv4.isSome then 1 else 0) +
                   (if c.device_vrf.ipv6.isSome then 1 else 0)) := by
  refine ⟨fun ht => ⟨fanout_rest c env "bgp_community" ht,
                     fanout_rest c env "bgp_aspath" ht⟩,
          fun hs hsome => ⟨fanout_scrape c env "bgp_community" hs hsome,
                           fanout_scrape c env "bgp_aspath" hs hsome⟩, ?_⟩
  rintro (ht | ⟨hs, hsome⟩) l (hl | hl)
  · have he := fanout_rest c env "bgp_community" ht
    unfold Construct.bgp_community at hl
    rw [he] at hl
    simp only [Except.ok.injEq] at hl
    subst hl
    cases h4 : c.device_vrf.ipv4 <;> cases h6 : c.device_vrf.ipv6 <;> simp [h4, h6]
  · have he := fanout_rest c env "bgp_aspath" ht
    unfold Construct.bgp_aspath at hl
    rw [he] at hl
    simp only [Except.ok.injEq] at hl
    subst hl
    cases h4 : c.device_vrf.ipv4 <;> cases h6 : c.device_vrf.ipv6 <;> simp [h4, h6]
  · have he := fanout_scrape c env "bgp_community" hs hsome
    unfold Construct.bgp_community at hl
    rw [he] at hl
    simp only [Except.ok.injEq] at hl
    subst hl
    cases h4 : c.device_vrf.ipv4 <;> cases h6 : c.device_vrf.ipv6 <;> simp [h4, h6]
  · have he := fanout_scrape c env "bgp_aspath" hs hsome
    unfold Construct.bgp_aspath at hl
    rw [he] at hl
    simp only [Except.ok.injEq] at hl
    subst hl
    cases h4 : c.device_vrf.ipv4 <;> cases h6 : c.device_vrf.ipv6 <;> simp [h4, h6]

/-- Witness for C3: the fixture VRF has both families, so a rest invocation
returns exactly two payloads and a scrape invocation exactly two rendered CLI
commands, ipv4 first in both. -/
theorem C3_fanout_per_family_witness :
    cX.bgp_community envX =
      .ok [Artifact.rest { query_type := "bgp_community", vrf := "default",
                           afi := "ipv4_default", source := none,
                           target := "192.0.2.0/24" },
           Artifact.rest { query_type := "bgp_community", vrf := "default",
                           afi := "ipv6_default", source := none,
                           target := "192.0.2.0/24" }] ∧
    cX.bgp_aspath envX =
      .ok [Artifact.rest { query_type := "bgp_aspath", vrf := "default",
                           afi := "ipv4_default", source := none,
                           target := "192.0.2.0/24" },
           Artifact.rest { query_type := "bgp_aspath", vrf := "default",
                           afi := "ipv6_default", source := none,
                           target := "192.0.2.0/24" }] ∧
    cS.bgp_community envX =
      .ok [Artifact.cli "cisco_ios ipv4_default bgp_community 192.0.2.0/24 192.0.2.1 default",
           Artifact.cli "cisco_ios ipv6_default bgp_community 192.0.2.0/24 2001:db8::1 default"] := by
  have h1 := (C3_fanout_per_family cX envX).1 rfl
  have h2 := (C3_fanout_per_family cS envX).2.1 rfl (fun ct qt => rfl)
  exact ⟨h1.1, h1.2, h2.1⟩

/-- When the target's family is absent on the resolved VRF, each single-target
operation fails with afiMismatch (for "scrape" under a catalog hit, since the
template lookup precedes the sub-record access). -/
theorem single_afi_mismatch (c : Construct) (env : Env) (v : Nat)
    (hv : env.ipVersion c.query_target = some v)
    (hafi : c.device_vrf.afiField ("ipv" ++ toString v) = none)
    (htr : c.transport = "rest" ∨
      (c.transport = "scrape" ∧ ∀ ct qt, (env.commands c.device.commands ct qt).isSome)) :
    c.ping env = .error (.afiMismatch ("ipv" ++ toString v)) ∧
    c.traceroute env = .error (.afiMismatch ("ipv" ++ toString v)) ∧
    c.bgp_route env = .error (.afiMismatch ("ipv" ++ toString v)) := by
  refine ⟨?_, ?_, ?_⟩
  · rw [ping_eq, hv]
    rcases htr with ht | ⟨hs, hsome⟩
    · simp [ht, hafi]
    · obtain ⟨cmd, hcmd⟩ := Option.isSome_iff_exists.mp
        (hsome (get_cmd_type ("ipv" ++ toString v) (some c.query_vrf)) "ping")
      simp [hs, hcmd, hafi]
  · rw [traceroute_eq, hv]
    rcases htr with ht | ⟨hs, hsome⟩
    · simp [ht, hafi]
    · obtain ⟨cmd, hcmd⟩ := Option.isSome_iff_exists.mp
        (hsome (get_cmd_type ("ipv" ++ toString v) (some c.query_vrf)) "traceroute")
      simp [hs, hcmd, hafi]
  · rw [bgp_route_eq, hv]
    rcases htr with ht | ⟨hs, hsome⟩
    · simp [ht, hafi]
    · obtain ⟨cmd, hcmd⟩ := Option.isSome_iff_exists.mp
        (hsome (get_cmd_type ("ipv" ++ toString v) (some c.query_vrf)) "bgp_route")
      simp [hs, hcmd, hafi]

/-- Claim C4: ping, traceroute and bgp_route derive the address family from
the syntactic form of the target (ip_network version 4 selects ipv4, version 6
selects ipv6); when the resolved VRF lacks the sub-record of that family, the
operation fails with afiMismatch instead of producing an artifact.  (Over the
"scrape" transport this assumes the command template exists, because the
catalog lookup happens before the sub-record is dereferenced.) -/
theorem C4_afi_from_target (c : Construct) (env : Env)
    (htr : c.transport = "rest" ∨
      (c.transport = "scrape" ∧ ∀ ct qt, (env.commands c.device.commands ct qt).isSome)) :
    (env.ipVersion c.query_target = some 4 → c.device_vrf.ipv4 = none →
      c.ping env = .error (.afiMismatch "ipv4") ∧
      c.traceroute env = .error (.afiMismatch "ipv4") ∧
      c.bgp_route env = .error (.afiMismatch "ipv4")) ∧
    (env.ipVersion c.query_target = some 6 → c.device_vrf.ipv6 = none →
      c.ping env = .error (.afiMismatch "ipv6") ∧
      c.traceroute env = .error (.afiMismatch "ipv6") ∧
      c.bgp_route env = .error (.afiMismatch "ipv6")) := by
  constructor
  · intro hv hafi
    have e : ("ipv" ++ toString (4 : Nat)) = "ipv4" := rfl
    have h := single_afi_mismatch c env 4 hv (by rw [e, afiField_ipv4]; exact hafi) htr
    rw [e] at h
    exact h
  · intro hv hafi
    have e : ("ipv" ++ toString (6 : Nat)) = "ipv6" := rfl
    have h := single_afi_mismatch c env 6 hv (by rw [e, afiField_ipv6]; exact hafi) htr
    rw [e] at h
    exact h

/-- Witness for C4: an IPv4 address queried over "rest" against a VRF with no
ipv4 sub-record fails with afiMismatch for all three operations. -/
theorem C4_afi_from_target_witness :
    cY.ping envN = .error (.afiMismatch "ipv4") ∧
    cY.traceroute envN = .error (.afiMismatch "ipv4") ∧
    cY.bgp_route envN = .error (.afiMismatch "ipv4") :=
  (C4_afi_from_target cY envN (Or.inl rfl)).1 rfl rfl

/-- Claim C5: REST payloads of ping/traceroute always carry a present source
address, REST payloads of bgp_route/bgp_community/bgp_aspath always carry
source = null. -/
theorem C5_source_presence (c : Construct) (env : Env) :
    (∀ l, c.ping env = .ok l → ∀ p, Artifact.rest p ∈ l → p.source ≠ none) ∧
    (∀ l, c.traceroute env = .ok l → ∀ p, Artifact.rest p ∈ l → p.source ≠ none) ∧
    (∀ l, c.bgp_route env = .ok l → ∀ p, Artifact.rest p ∈ l → p.source = none) ∧
    (∀ l, c.bgp_community env = .ok l → ∀ p, Artifact.rest p ∈ l → p.source = none) ∧
    (∀ l, c.bgp_aspath env = .ok l → ∀ p, Artifact.rest p ∈ l → p.source = none) := by
  refine ⟨?_, ?_, ?_, ?_, ?_⟩
  · intro l h p hp
    have := (ping_rest_payload c env l h p hp).2.2
    simp only [Option.isSome_iff_ne_none] at this
    exact this
  · intro l h p hp
    have := (traceroute_rest_payload c env l h p hp).2.2
    simp only [Option.isSome_iff_ne_none] at this
    exact this
  · intro l h p hp
    exact (bgp_route_rest_payload c env l h p hp).2.2
  · intro l h p hp
    exact (fanout_rest_payload c env "bgp_community" c.device_vrf.populatedAfis l h p hp).2.2
  · intro l h p hp
    exact (fanout_rest_payload c env "bgp_aspath" c.device_vrf.populatedAfis l h p hp).2.2

/-- The concrete ping REST payload of the fixture run. -/
def pPing : RestPayload :=
  { query_type := "ping", vrf := "default", afi := "ipv4_default",
    source := some "192.0.2.1", target := "192.0.2.0/24" }

/-- Witness for C5 at the fixtures: ping's payload has a present source,
bgp_route's payload a null one. -/
theorem C5_source_presence_witness :
    pPing.source ≠ none ∧ pC1.source = none :=
  ⟨(C5_source_presence cX envX).1 [Artifact.rest pPing] rfl pPing (by simp),
   (C5_source_presence cX envX).2.2.1 [Artifact.rest pC1] rfl pC1 (by simp)⟩

/-- Claim C7: over the "scrape" (CLI) transport, a missing
(nos, command-category, query-type) catalog entry makes the operation fail
with templateNotFound; the failure yields no artifact list at all (for the
fan-out operations the first iteration's lookup already aborts the loop). -/
theorem C7_template_missing (c : Construct) (env : Env) (hs : c.transport = "scrape") :
    (∀ v, env.ipVersion c.query_target = some v →
      env.commands c.device.commands
          (get_cmd_type ("ipv" ++ toString v) (some c.query_vrf)) "ping" = none →
      c.ping env = .error (.templateNotFound c.device.commands
          (get_cmd_type ("ipv" ++ toString v) (some c.query_vrf)) "ping")) ∧
    (∀ v, env.ipVersion c.query_target = some v →
      env.commands c.device.commands
          (get_cmd_type ("ipv" ++ toString v) (some c.query_vrf)) "traceroute" = none →
      c.traceroute env = .error (.templateNotFound c.device.commands
          (get_cmd_type ("ipv" ++ toString v) (some c.query_vrf)) "traceroute")) ∧
    (∀ v, env.ipVersion c.query_target = some v →
      env.commands c.device.commands
          (get_cmd_type ("ipv" ++ toString v) (some c.query_vrf)) "bgp_route" = none →
      c.bgp_route env = .error (.templateNotFound c.device.commands
          (get_cmd_type ("ipv" ++ toString v) (some c.query_vrf)) "bgp_route")) ∧
    (∀ a rest, c.device_vrf.populatedAfis = a :: rest →
      env.commands c.device.commands (get_cmd_type a (some c.query_vrf)) "bgp_community" = none →
      c.bgp_community env = .error (.templateNotFound c.device.commands
          (get_cmd_type a (some c.query_vrf)) "bgp_community")) ∧
    (∀ a rest, c.device_vrf.populatedAfis = a :: rest →
      env.commands c.device.commands (get_cmd_type a (some c.query_vrf)) "bgp_aspath" = none →
      c.bgp_aspath env = .error (.templateNotFound c.device.commands
          (get_cmd_type a (some c.query_vrf)) "bgp_aspath")) := by
  refine ⟨?_, ?_, ?_, ?_, ?_⟩
  · intro v hv hmiss
    rw [ping_eq, hv]
    simp [hs, hmiss]
  · intro v hv hmiss
    rw [traceroute_eq, hv]
    simp [hs, hmiss]
  · intro v hv hmiss
    rw [bgp_route_eq, hv]
    simp [hs, hmiss]
  · intro a rest hpop hmiss
    unfold Construct.bgp_community
    rw [hpop, fanout, communityItem_eq]
    simp [hs, hmiss]
  · intro a rest hpop hmiss
    unfold Construct.bgp_aspath
    rw [hpop, fanout, communityItem_eq]
    simp [hs, hmiss]

/-- Witness for C7 over the empty catalog: every CLI operation fails with
templateNotFound. -/
theorem C7_template_missing_witness :
    cS.ping envN = .error (.templateNotFound "cisco_ios" "ipv4_default" "ping") ∧
    cS.bgp_community envN =
      .error (.templateNotFound "cisco_ios" "ipv4_default" "bgp_community") := by
  have h := C7_template_missing cS envN rfl
  exact ⟨h.1 4 rfl rfl, h.2.2.2.1 "ipv4" ["ipv6"] rfl rfl⟩

/-- Claim C8: every Command Artifact of one invocation — REST payload or CLI
command string alike — is built from the invocation's single query_target
(formatted by format_target for bgp_route) and from a command category derived
from the invocation's single query_vrf; across fan-out artifacts only the
family key, the sub-record's source address and its vrf_name vary.  In
particular all artifacts of one list embed the same target. -/
theorem C8_invocation_context (c : Construct) (env : Env) :
    (∀ l, c.ping env = .ok l → ∀ x, x ∈ l → ∃ proto a,
      c.device_vrf.afiField proto = some a ∧
      ((∃ src, a.source_address = some src ∧
        x = Artifact.rest { query_type := "ping", vrf := a.vrf_name,
                            afi := get_cmd_type proto (some c.query_vrf),
                            source := some src, target := c.query_target }) ∨
       (∃ cmd, env.commands c.device.commands
            (get_cmd_type proto (some c.query_vrf)) "ping" = some cmd ∧
        x = Artifact.cli (pyFormat cmd c.query_target
            (pyStrSource a.source_address) a.vrf_name)))) ∧
    (∀ l, c.traceroute env = .ok l → ∀ x, x ∈ l → ∃ proto a,
      c.device_vrf.afiField proto = some a ∧
      ((∃ src, a.source_address = some src ∧
        x = Artifact.rest { query_type := "traceroute", vrf := a.vrf_name,
                            afi := get_cmd_type proto (some c.query_vrf),
                            source := some src, target := c.query_target }) ∨
       (∃ cmd, env.commands c.device.commands
            (get_cmd_type proto (some c.query_vrf)) "traceroute" = some cmd ∧
        x = Artifact.cli (pyFormat cmd c.query_target
            (pyStrSource a.source_address) a.vrf_name)))) ∧
    (∀ l, c.bgp_route env = .ok l → ∀ x, x ∈ l → ∃ proto a,
      c.device_vrf.afiField proto = some a ∧
      (x = Artifact.rest { query_type := "bgp_route", vrf := a.vrf_name,
                           afi := get_cmd_type proto (some c.query_vrf),
                           source := none,
                           target := c.format_target env c.query_target } ∨
       (∃ cmd, env.commands c.device.commands
            (get_cmd_type proto (some c.query_vrf)) "bgp_route" = some cmd ∧
        x = Artifact.cli (pyFormat cmd (c.format_target env c.query_target)
            (pyStrSource a.source_address) a.vrf_name)))) ∧
    (∀ l, c.bgp_community env = .ok l → ∀ x, x ∈ l → ∃ afi a,
      afi ∈ c.device_vrf.populatedAfis ∧ c.device_vrf.afiField afi = some a ∧
      (x = Artifact.rest { query_type := "bgp_community", vrf := a.vrf_name,
                           afi := get_cmd_type afi (some c.query_vrf),
                           source := none, target := c.query_target } ∨
       (∃ cmd, env.commands c.device.commands
            (get_cmd_type afi (some c.query_vrf)) "bgp_community" = some cmd ∧
        x = Artifact.cli (pyFormat cmd c.query_target
            (pyStrSource a.source_address) a.vrf_name)))) ∧
    (∀ l, c.bgp_aspath env = .ok l → ∀ x, x ∈ l → ∃ afi a,
      afi ∈ c.device_vrf.populatedAfis ∧ c.device_vrf.afiField afi = some a ∧
      (x = Artifact.rest { query_type := "bgp_aspath", vrf := a.vrf_name,
                           afi := get_cmd_type afi (some c.query_vrf),
                           source := none, target := c.query_target } ∨
       (∃ cmd, env.commands c.device.commands
            (get_cmd_type afi (some c.query_vrf)) "bgp_aspath" = some cmd ∧
        x = Artifact.cli (pyFormat cmd c.query_target
            (pyStrSource a.source_address) a.vrf_name)))) := by
  refine ⟨?_, ?_, ?_, ?_, ?_⟩
  · intro l h x hx
    exact ping_artifact_src c env l h x hx
  · intro l h x hx
    exact traceroute_artifact_src c env l h x hx
  · intro l h x hx
    exact bgp_route_artifact_src c env l h x hx
  · intro l h x hx
    exact fanout_artifact_src c env "bgp_community" c.device_vrf.populatedAfis l h x hx
  · intro l h x hx
    exact fanout_artifact_src c env "bgp_aspath" c.device_vrf.populatedAfis l h x hx

/-- The ipv6 community payload of the fixture run. -/
def pComm6 : RestPayload :=
  { query_type := "bgp_community", vrf := "default", afi := "ipv6_default",
    source := none, target := "192.0.2.0/24" }

/-- The ipv4 community payload of the fixture run. -/
def pComm4 : RestPayload :=
  { query_type := "bgp_community", vrf := "default", afi := "ipv4_default",
    source := none, target := "192.0.2.0/24" }

/-- Witness for C8: the characterization holds for a REST payload of the
fixture's rest fan-out and for a rendered CLI string of its scrape fan-out. -/
theorem C8_invocation_context_witness :
    (∃ afi a, afi ∈ cX.device_vrf.populatedAfis ∧
      cX.device_vrf.afiField afi = some a ∧
      (Artifact.rest pComm4 =
        Artifact.rest { query_type := "bgp_community", vrf := a.vrf_name,
                        afi := get_cmd_type afi (some cX.query_vrf),
                        source := none, target := cX.query_target } ∨
       (∃ cmd, envX.commands cX.device.commands
            (get_cmd_type afi (some cX.query_vrf)) "bgp_community" = some cmd ∧
        Artifact.rest pComm4 = Artifact.cli (pyFormat cmd cX.query_target
            (pyStrSource a.source_address) a.vrf_name)))) ∧
    (∃ afi a, afi ∈ cS.device_vrf.populatedAfis ∧
      cS.device_vrf.afiField afi = some a ∧
      (Artifact.cli "cisco_ios ipv4_default bgp_community 192.0.2.0/24 192.0.2.1 default" =
        Artifact.rest { query_type := "bgp_community", vrf := a.vrf_name,
                        afi := get_cmd_type afi (some cS.query_vrf),
                        source := none, target := cS.query_target } ∨
       (∃ cmd, envX.commands cS.device.commands
            (get_cmd_type afi (some cS.query_vrf)) "bgp_community" = some cmd ∧
        Artifact.cli "cisco_ios ipv4_default bgp_community 192.0.2.0/24 192.0.2.1 default" =
          Artifact.cli (pyFormat cmd cS.query_target
            (pyStrSource a.source_address) a.vrf_name)))) :=
  ⟨(C8_invocation_context cX envX).2.2.2.1
      [Artifact.rest pComm4, Artifact.rest pComm6] rfl (Artifact.rest pComm4) (by simp),
   (C8_invocation_context cS envX).2.2.2.1
      [Artifact.cli "cisco_ios ipv4_default bgp_community 192.0.2.0/24 192.0.2.1 default",
       Artifact.cli "cisco_ios ipv6_default bgp_community 192.0.2.0/24 2001:db8::1 default"]
      rfl
      (Artifact.cli "cisco_ios ipv4_default bgp_community 192.0.2.0/24 192.0.2.1 default")
      (by simp)⟩

/-- Claim C9: with any transport string other than "rest" and "scrape", every
operation returns an empty artifact list without raising (for the
single-target operations this assumes the target parses, since ip_network runs
before the transport dispatch). -/
theorem C9_unknown_transport (c : Construct) (env : Env)
    (h1 : c.transport ≠ "rest") (h2 : c.transport ≠ "scrape") :
    (∀ v, env.ipVersion c.query_target = some v →
      c.ping env = .ok [] ∧ c.traceroute env = .ok [] ∧ c.bgp_route env = .ok []) ∧
    c.bgp_community env = .ok [] ∧ c.bgp_aspath env = .ok [] := by
  refine ⟨?_, ?_, ?_⟩
  · intro v hv
    refine ⟨?_, ?_, ?_⟩
    · rw [ping_eq, hv]; simp [h1, h2]
    · rw [traceroute_eq, hv]; simp [h1, h2]
    · rw [bgp_route_eq, hv]; simp [h1, h2]
  · exact fanout_other c env "bgp_community" h1 h2 c.device_vrf.populatedAfis
  · exact fanout_other c env "bgp_aspath" h1 h2 c.device_vrf.populatedAfis

/-- Witness for C9 with the transport "telnet". -/
theorem C9_unknown_transport_witness :
    cT.ping envX = .ok [] ∧ cT.bgp_community envX = .ok [] := by
  have h := C9_unknown_transport cT envX (by decide) (by decide)
  exact ⟨(h.1 4 rfl).1, h.2.1⟩

/-- Claim C10: over the "rest" transport, ping and traceroute construct the
source field by dereferencing the AFI sub-record's source address, so an
absent source address makes the operation fail instead of producing a payload
with a null source. -/
theorem C10_missing_source (c : Construct) (env : Env) (ht : c.transport = "rest") :
    (∀ a, env.ipVersion c.query_target = some 4 → c.device_vrf.ipv4 = some a →
      a.source_address = none →
      c.ping env = .error .sourceAddressMissing ∧
      c.traceroute env = .error .sourceAddressMissing) ∧
    (∀ a, env.ipVersion c.query_target = some 6 → c.device_vrf.ipv6 = some a →
      a.source_address = none →
      c.ping env = .error .sourceAddressMissing ∧
      c.traceroute env = .error .sourceAddressMissing) := by
  constructor
  · intro a hv ha hsrc
    have e : ("ipv" ++ toString (4 : Nat)) = "ipv4" := rfl
    constructor
    · rw [ping_eq, hv]; simp [ht, e, ha, hsrc]
    · rw [traceroute_eq, hv]; simp [ht, e, ha, hsrc]
  · intro a hv ha hsrc
    have e : ("ipv" ++ toString (6 : Nat)) = "ipv6" := rfl
    constructor
    · rw [ping_eq, hv]; simp [ht, e, ha, hsrc]
    · rw [traceroute_eq, hv]; simp [ht, e, ha, hsrc]

/-- Witness for C10: the fixture sub-record without a source address makes
REST ping and traceroute fail. -/
theorem C10_missing_source_witness :
    cN.ping envN = .error .sourceAddressMissing ∧
    cN.traceroute envN = .error .sourceAddressMissing :=
  (C10_missing_source cN envN rfl).1 afi4N rfl rfl rfl

end Hyperglass
